import Mathlib

/-!
Shallow embedding of the `pbx_integration` Frappe app (Yeastar PBX bridge)
and proofs of its specified properties.

Embedded source files:
- `pbx_integration/api/webhook.py` (webhook routing and the CDR upsert),
- `pbx_integration/pbx_integration/doctype/pbx_settings/pbx_settings.py`
  (token lifecycle),
- `pbx_integration/pbx_integration/doctype/pbx_call_log/pbx_call_log.py`
  (phone normalization and CRM lookup),
- `pbx_integration/pbx_integration/doctype/pbx_user_extension/pbx_user_extension.py`
  (extension validation).

Modelling conventions:
- Python `None`-able values are `Option`; Python truthiness of strings
  (`None` and `""` falsy) and ints (`None` and `0` falsy) is made explicit.
- Datetimes are integers (seconds); only their order and addition matter.
- The database is explicit state: lists of rows threaded through functions.
- Outbound HTTP is an oracle: a list of pending results consumed one per
  request, plus a log of the requests issued.
-/

namespace PbxRouting

/-- Python truthiness of an optional string: `None` and `""` are falsy. -/
def strTruthy : Option String → Bool
  | none => false
  | some s => !(s == "")

/-- Python truthiness of an optional int: `None` and `0` are falsy. -/
def intTruthy : Option Int → Bool
  | none => false
  | some n => !(n == 0)

/-- Python `a or b` on optional strings (left operand wins when truthy). -/
def pyOrStr (a b : Option String) : Option String :=
  if strTruthy a then a else b

/-- Python `a or b or 0` on optional numbers, as used for durations. -/
def pyOrNat (a b : Option Nat) : Nat :=
  match a with
  | some n => if n ≠ 0 then n else (match b with
      | some m => if m ≠ 0 then m else 0
      | none => 0)
  | none => match b with
      | some m => if m ≠ 0 then m else 0
      | none => 0

/-- Whether `key` occurs as a contiguous run of characters in `l`
(the semantics of SQL `LIKE concat of percent, key, percent`). -/
def charsStartWith : List Char → List Char → Bool
  | [], _ => true
  | _ :: _, [] => false
  | a :: as, b :: bs => a == b && charsStartWith as bs

def charsContain (key : List Char) : List Char → Bool
  | [] => key == []
  | b :: bs => charsStartWith key (b :: bs) || charsContain key bs

/-- SQL `LIKE` with the key wrapped in percent wildcards: substring test. -/
def likeContains (key stored : String) : Bool :=
  charsContain key.toList stored.toList

/-- Python `s[-10:]`: the last 10 characters, or all of `s` when shorter. -/
def pyLast10 (s : String) : String :=
  String.mk (s.toList.drop (s.toList.length - 10))

/-!
## `pbx_call_log.py` — `PBXCallLog.normalize_phone`
-/

/-- `PBXCallLog.normalize_phone`: successively removes every occurrence of
each of `" "`, `"-"`, `"("`, `")"`, `"+"`, `"."`; `None`/`""` maps to `""`.
Successive single-character `str.replace` calls equal one filter. -/
def normalize_phone (phone : Option String) : String :=
  match phone with
  | none => ""
  | some s =>
    if s == "" then "" else
      String.mk (s.toList.filter (fun c =>
        !(c == ' ' || c == '-' || c == '(' || c == ')' || c == '+' || c == '.')))

/-!
## `pbx_user_extension.py` — `PBXUserExtension.validate`
-/

/-- Python `str.isdigit` restricted to ASCII content: nonempty and all
characters decimal digits. -/
def pyIsdigit (s : String) : Bool :=
  !(s == "") && s.toList.all Char.isDigit

structure PBXUserExtension where
  extension : Option String
  deriving Repr, DecidableEq

/-- `PBXUserExtension.validate`: `frappe.throw` (modelled as `Except.error`)
when the extension is truthy and not all digits. -/
def PBXUserExtension.validate (doc : PBXUserExtension) : Except String Unit :=
  if strTruthy doc.extension && !(pyIsdigit (doc.extension.getD "")) then
    Except.error "Extension must be a numeric value"
  else
    Except.ok ()

/-!
## `pbx_call_log.py` — CRM lookup (`find_contact`, `find_customer`,
`find_lead`, `lookup_phone_number`)

The relational store is explicit: lists of Contact / Customer / Lead rows.
`frappe.db.get_value` with a `LIKE` filter returns some matching row in an
undefined order; the model determinizes to the first row in list order.
-/

structure ContactLink where
  link_doctype : String
  link_name : String
  deriving Repr, DecidableEq

/-- A `Contact` row: `phone_nos` is the `Contact Phone` child table,
`phone` the main phone field, `links` the `Dynamic Link` child table. -/
structure Contact where
  name : String
  first_name : String
  last_name : Option String
  phone : Option String
  phone_nos : List String
  links : List ContactLink
  deriving Repr, DecidableEq

structure Customer where
  name : String
  mobile_no : Option String
  deriving Repr, DecidableEq

structure Lead where
  name : String
  mobile_no : Option String
  phone : Option String
  deriving Repr, DecidableEq

structure CrmDB where
  contacts : List Contact
  customers : List Customer
  leads : List Lead
  deriving Repr, DecidableEq

/-- SQL `LIKE` against a nullable column: `NULL` never matches. -/
def optLike (key : String) : Option String → Bool
  | none => false
  | some s => likeContains key s

/-- `PBXCallLog.find_contact`: first a `Contact Phone` child-table match,
then the main `phone` field, keyed on the last 10 characters. -/
def find_contact (db : CrmDB) (phone : String) : Option Contact :=
  let key := pyLast10 phone
  match db.contacts.find? (fun c => c.phone_nos.any (likeContains key)) with
  | some c => some c
  | none => db.contacts.find? (fun c => optLike key c.phone)

/-- `PBXCallLog.find_customer`: first `Customer.mobile_no`, then the SQL
join Contact ⋈ Contact Phone ⋈ Dynamic Link restricted to Customer links. -/
def find_customer (db : CrmDB) (phone : String) : Option String :=
  let key := pyLast10 phone
  match db.customers.find? (fun c => optLike key c.mobile_no) with
  | some c => some c.name
  | none =>
    match db.contacts.find? (fun c =>
        c.phone_nos.any (likeContains key)
          && c.links.any (fun l => l.link_doctype == "Customer")) with
    | some c =>
      (c.links.find? (fun l => l.link_doctype == "Customer")).map
        (fun l => l.link_name)
    | none => none

/-- `PBXCallLog.find_lead`: `Lead.mobile_no`, then `Lead.phone`. -/
def find_lead (db : CrmDB) (phone : String) : Option String :=
  let key := pyLast10 phone
  match db.leads.find? (fun l => optLike key l.mobile_no) with
  | some l => some l.name
  | none => (db.leads.find? (fun l => optLike key l.phone)).map (fun l => l.name)

/-- The dict returned by `lookup_phone_number`. -/
structure LookupResult where
  phone : Option String
  found : Bool
  customer : Option String
  lead : Option String
  contact : Option String
  contact_name : Option String
  deriving Repr, DecidableEq

/-- The `for link in contact.links` loop assigns on every matching link
without breaking, so the last link of the given doctype wins. -/
def lastLinkName (dt : String) (links : List ContactLink) : Option String :=
  ((links.filter (fun l => l.link_doctype == dt)).getLast?).map
    (fun l => l.link_name)

/-- `contact.first_name + (" " + contact.last_name if contact.last_name else "")` -/
def contactDisplayName (c : Contact) : String :=
  c.first_name ++ (if strTruthy c.last_name then " " ++ c.last_name.getD "" else "")

/-- `lookup_phone_number`: normalize, then Contact → Customer → Lead in
strict order, returning at the first hit. -/
def lookup_phone_number (db : CrmDB) (phone_number : Option String) :
    LookupResult :=
  let normalized := normalize_phone phone_number
  match find_contact db normalized with
  | some c =>
    { phone := phone_number, found := true,
      customer := lastLinkName "Customer" c.links,
      lead := lastLinkName "Lead" c.links,
      contact := some c.name, contact_name := some (contactDisplayName c) }
  | none =>
    match find_customer db normalized with
    | some cust =>
      { phone := phone_number, found := true, customer := some cust,
        lead := none, contact := none, contact_name := none }
    | none =>
      match find_lead db normalized with
      | some l =>
        { phone := phone_number, found := true, customer := none,
          lead := some l, contact := none, contact_name := none }
      | none =>
        { phone := phone_number, found := false, customer := none,
          lead := none, contact := none, contact_name := none }

/-!
## `pbx_settings.py` — token lifecycle

Outbound HTTP is modelled by an oracle: a list of pending `HttpResult`s,
consumed one per request. Every request issued is appended to a log so the
theorems can count HTTP traffic. `now` is the (constant within one
invocation) wall clock.
-/

structure PBXSettings where
  enabled : Bool
  api_host : String
  client_id : String
  client_secret : String
  access_token : Option String
  refresh_token : Option String
  token_expiry : Option Int
  deriving Repr, DecidableEq

/-- An outbound POST issued by the token manager. -/
inductive HttpRequest where
  /-- `POST /openapi/v1.0/get_token` with username/password payload. -/
  | getTokenReq (username password : String)
  /-- `POST /openapi/v1.0/refresh_token` with the refresh token payload. -/
  | refreshTokenReq (refresh_token : String)
  deriving Repr, DecidableEq

/-- Outcome of one outbound POST: a transport-level failure
(`requests.exceptions.RequestException`, including non-2xx via
`raise_for_status`), or a parsed vendor JSON body. -/
inductive HttpResult where
  | transportError
  | reply (errcode : Int) (access_token : Option String)
      (refresh_token : Option String) (access_token_expire_time : Option Int)
  deriving Repr, DecidableEq

structure TMState where
  settings : PBXSettings
  now : Int
  oracle : List HttpResult
  sent : List HttpRequest
  deriving Repr, DecidableEq

/-- Issue one POST: log the request and consume the next oracle entry
(an exhausted oracle behaves as a transport failure). -/
def doPost (req : HttpRequest) (st : TMState) : HttpResult × TMState :=
  match st.oracle with
  | [] => (HttpResult.transportError, { st with sent := st.sent ++ [req] })
  | r :: rest => (r, { st with oracle := rest, sent := st.sent ++ [req] })

/-- `PBXSettings._save_tokens`: store the reply's tokens and set
`token_expiry` to now plus the reported TTL (default 1800) minus the fixed
300-second safety margin. -/
def save_tokens (access_token refresh_token : Option String)
    (access_token_expire_time : Option Int) (st : TMState) : TMState :=
  let expire_seconds := access_token_expire_time.getD 1800
  { st with settings :=
    { st.settings with
      access_token := access_token
      refresh_token := refresh_token
      token_expiry := some (st.now + (expire_seconds - 300)) } }

/-- `PBXSettings._authenticate`: POST to `get_token` with the stored
credentials; on `errcode == 0` save tokens and return the (possibly
absent) access token from the reply; otherwise return `None`. -/
def authenticate (st : TMState) : Option String × TMState :=
  let r :=
    doPost (HttpRequest.getTokenReq st.settings.client_id st.settings.client_secret) st
  match r.1 with
  | HttpResult.transportError => (none, r.2)
  | HttpResult.reply ec tok rtok ttl =>
    if ec == 0 then
      let st2 := save_tokens tok rtok ttl r.2
      (st2.settings.access_token, st2)
    else (none, r.2)

/-- `PBXSettings._refresh_access_token`: POST to `refresh_token`; on
`errcode == 0` save and return the token; on a vendor error or transport
failure fall through to `authenticate`. -/
def refresh_access_token (st : TMState) : Option String × TMState :=
  let r :=
    doPost (HttpRequest.refreshTokenReq (st.settings.refresh_token.getD "")) st
  match r.1 with
  | HttpResult.transportError => authenticate r.2
  | HttpResult.reply ec tok rtok ttl =>
    if ec == 0 then
      let st2 := save_tokens tok rtok ttl r.2
      (st2.settings.access_token, st2)
    else authenticate r.2

/-- Result of `get_access_token`: `frappe.throw` or a returned
(possibly `None`) token. -/
inductive TokenResult where
  | thrown (msg : String)
  | ok (token : Option String)
  deriving Repr, DecidableEq

/-- `PBXSettings.get_access_token`: throw when disabled; return the cached
token while `now < token_expiry`; else try the refresh path when a refresh
token is present (falling through when it yields a falsy token); else
authenticate from scratch. -/
def get_access_token (st : TMState) : TokenResult × TMState :=
  if !st.settings.enabled then
    (TokenResult.thrown "PBX Integration is not enabled", st)
  else if strTruthy st.settings.access_token
      && st.settings.token_expiry.isSome
      && decide (st.now < st.settings.token_expiry.getD 0) then
    (TokenResult.ok st.settings.access_token, st)
  else if strTruthy st.settings.refresh_token then
    let p := refresh_access_token st
    if strTruthy p.1 then (TokenResult.ok p.1, p.2)
    else
      let q := authenticate p.2
      (TokenResult.ok q.1, q.2)
  else
    let q := authenticate st
    (TokenResult.ok q.1, q.2)

/-- Number of full-authentication (`get_token`) requests in a log. -/
def countGetToken (reqs : List HttpRequest) : Nat :=
  (reqs.filter (fun r => match r with
    | HttpRequest.getTokenReq _ _ => true
    | _ => false)).length

/-- Whether an HTTP outcome makes the refresh call fail (transport error or
nonzero vendor errcode). -/
def replyFails : HttpResult → Bool
  | HttpResult.transportError => true
  | HttpResult.reply ec _ _ _ => !(ec == 0)

/-- Whether an authenticate outcome yields a truthy token. -/
def authTruthySuccess : HttpResult → Bool
  | HttpResult.transportError => false
  | HttpResult.reply ec tok _ _ => ec == 0 && strTruthy tok

/-- The access token carried by a vendor reply. -/
def replyToken : HttpResult → Option String
  | HttpResult.transportError => none
  | HttpResult.reply _ tok _ _ => tok

/-!
## `webhook.py` — `receive`: routing of inbound payloads

`receive` first parses the request body; a body that is not valid JSON
raises `json.JSONDecodeError`, which the outer `except Exception` turns
into a `status: error` response. A parsed body routes on the new envelope
(`type` truthy and a `msg` key present) or the legacy `event`/`action`
field. An empty body falls back to `frappe.form_dict`, i.e. an already
parsed payload.
-/

/-- A parsed inbound payload; fields are `None` when the key is absent. -/
structure Payload where
  type_ : Option Int
  msg : Option String
  event : Option String
  action : Option String
  deriving Repr, DecidableEq

/-- The request body as `receive` sees it. -/
inductive RawBody where
  | malformed
  | parsed (d : Payload)
  deriving Repr, DecidableEq

/-- Where `receive` sends a payload, or what it answers directly. -/
inductive RouteResult where
  /-- the outer `except Exception` branch: `status: error`. -/
  | routeError (msg : String)
  | toYeastarCdr
  | toYeastarCallStatus
  /-- new envelope with an unhandled type code: immediate `status: ok`. -/
  | okUnhandledType (t : Int)
  | toNewCdr
  | toCallStatus
  | toExtensionStatus
  | toRinging
  | toAnswer
  | toHangup
  /-- legacy shape with an unknown event name: immediate `status: ok`. -/
  | okUnknownEvent (name : String)
  deriving Repr, DecidableEq

/-- `data.get("event") or data.get("action") or "unknown"`. -/
def legacyEventName (d : Payload) : String :=
  (pyOrStr d.event (pyOrStr d.action (some "unknown"))).getD "unknown"

/-- The dispatch logic of `receive` (webhook.py lines 33-92). -/
def receive_route : RawBody → RouteResult
  | RawBody.malformed => RouteResult.routeError "request body is not valid JSON"
  | RawBody.parsed d =>
    if intTruthy d.type_ && d.msg.isSome then
      if d.type_ == some 30012 then RouteResult.toYeastarCdr
      else if d.type_ == some 30011 then RouteResult.toYeastarCallStatus
      else RouteResult.okUnhandledType (d.type_.getD 0)
    else
      let event_name := legacyEventName d
      if event_name == "NewCdr" then RouteResult.toNewCdr
      else if event_name == "CallStatus" then RouteResult.toCallStatus
      else if event_name == "ExtensionStatus" then RouteResult.toExtensionStatus
      else if event_name == "Ringing" then RouteResult.toRinging
      else if event_name == "answer" then RouteResult.toAnswer
      else if event_name == "hangup" || event_name == "HANGUP" then RouteResult.toHangup
      else RouteResult.okUnknownEvent event_name

/-- The `status` field `receive` answers with before any handler runs:
`some` for the error path and the two acknowledge-and-ignore paths,
`none` when a handler decides the response. -/
def immediateStatus : RouteResult → Option String
  | RouteResult.routeError _ => some "error"
  | RouteResult.okUnhandledType _ => some "ok"
  | RouteResult.okUnknownEvent _ => some "ok"
  | _ => none

/-!
## `webhook.py` — `handle_yeastar_cdr`: the CDR upsert

The two affected tables are explicit lists: the ERPNext `Call Log` mirror
(updated in place when present, never inserted here) and the `PBX Call
Log` table the claimed upsert acts on. Row `name`s are naturals drawn from
a counter. The `before_insert` CRM-linking hook only assigns the
`linked_contact` / `linked_customer` / `linked_lead` columns, which no
modelled field depends on, so those columns are outside the row model.
`parse_datetime` is abstracted to the raw `time_start` value.
-/

/-- The `msg` payload of a type-30012 event, after JSON parsing; fields
are `None` when absent. -/
structure CdrMsg where
  call_id : Option String
  type_ : Option String
  status : Option String
  call_from : Option String
  call_to : Option String
  talk_duration : Option Nat
  call_duration : Option Nat
  recording : Option String
  time_start : Option String
  deriving Repr, DecidableEq

/-- A `PBX Call Log` row (the fields `handle_yeastar_cdr` touches). -/
structure CallLogRow where
  row_name : Nat
  call_id : Option String
  call_type : String
  status : String
  caller_number : Option String
  called_number : Option String
  extension : Option String
  call_start : Option String
  duration : Nat
  has_recording : Nat
  recording_url : Option String
  deriving Repr, DecidableEq

/-- An ERPNext `Call Log` row (the fields `handle_yeastar_cdr` touches). -/
structure ErpCallLogRow where
  row_name : Nat
  id : Option String
  status : String
  duration : Nat
  end_time : Option Int
  recording_url : Option String
  deriving Repr, DecidableEq

structure WebhookState where
  erp_doctype_exists : Bool
  erp_rows : List ErpCallLogRow
  pbx_rows : List CallLogRow
  next_name : Nat
  deriving Repr, DecidableEq

/-- The dict a handler returns: `status`, `message`, and on the upsert
branches the row `name`. -/
structure WebhookResponse where
  status : String
  message : String
  name : Option Nat
  deriving Repr, DecidableEq

/-- `call_type_map.get(msg_data.get("type"), "Incoming")`. -/
def yeastarCallTypeMap : Option String → String
  | some "Internal" => "Internal"
  | some "Inbound" => "Incoming"
  | some "Outbound" => "Outgoing"
  | _ => "Incoming"

/-- `status_map.get(msg_data.get("status"), "Completed")`. -/
def yeastarStatusMap : Option String → String
  | some "ANSWERED" => "Completed"
  | some "NO ANSWER" => "No Answer"
  | some "BUSY" => "Busy"
  | some "FAILED" => "Failed"
  | some "VOICEMAIL" => "No Answer"
  | _ => "Completed"

/-- `handle_yeastar_cdr` (webhook.py lines 95-202): map the vendor fields,
update the ERPNext mirror in place if a row exists, then upsert the
`PBX Call Log` row keyed by `call_id`. -/
def handle_yeastar_cdr (now : Int) (msg : CdrMsg) (st : WebhookState) :
    WebhookResponse × WebhookState :=
  let call_id := msg.call_id
  let mapped_type := yeastarCallTypeMap msg.type_
  let mapped_status := yeastarStatusMap msg.status
  let caller_number := msg.call_from
  let called_number := msg.call_to
  let duration := pyOrNat msg.talk_duration msg.call_duration
  let recording_url := msg.recording
  let extension :=
    if mapped_type == "Internal" then called_number
    else if mapped_type == "Incoming" then called_number else caller_number
  let erp_rows :=
    if st.erp_doctype_exists then
      match st.erp_rows.find? (fun r => r.id == call_id) with
      | some hit =>
        st.erp_rows.map (fun r =>
          if r.row_name == hit.row_name then
            { r with
              status := mapped_status
              duration := duration
              end_time := some now
              recording_url :=
                if strTruthy recording_url then recording_url else r.recording_url }
          else r)
      | none => st.erp_rows
    else st.erp_rows
  let new_row : CallLogRow :=
    { row_name := st.next_name
      call_id := call_id
      call_type := msg.type_.getD "Internal"
      status := msg.status.getD "Answered"
      caller_number := caller_number
      called_number := called_number
      extension := extension
      call_start := msg.time_start
      duration := duration
      has_recording := if strTruthy recording_url then 1 else 0
      recording_url := if strTruthy recording_url then recording_url else none }
  let inserted :=
    ({ status := "ok"
       message := "Call log created"
       name := some st.next_name : WebhookResponse },
     { st with
       erp_rows := erp_rows
       pbx_rows := new_row :: st.pbx_rows
       next_name := st.next_name + 1 })
  if strTruthy call_id then
    match st.pbx_rows.find? (fun r => r.call_id == call_id) with
    | some hit =>
      let pbx_rows := st.pbx_rows.map (fun r =>
        if r.row_name == hit.row_name then
          { r with
            status := new_row.status
            duration := new_row.duration
            has_recording := new_row.has_recording
            recording_url := new_row.recording_url }
        else r)
      ({ status := "ok", message := "Call log updated", name := some hit.row_name },
       { st with erp_rows := erp_rows, pbx_rows := pbx_rows })
    | none => inserted
  else inserted

/-- Number of `PBX Call Log` rows stored for a given call id. -/
def pbxCountFor (cid : String) (st : WebhookState) : Nat :=
  (st.pbx_rows.filter (fun r => r.call_id == some cid)).length

/-!
## Concrete example inputs used to instantiate the theorems
-/

/-- A completed-call CDR event (type 30012 `msg` payload). -/
def exCdrMsg : CdrMsg :=
  { call_id := some "162.1700000000.0"
    type_ := some "Inbound"
    status := some "ANSWERED"
    call_from := some "5551234567"
    call_to := some "1001"
    talk_duration := some 42
    call_duration := some 55
    recording := some "record-2024.wav"
    time_start := some "2024-01-01 09:00:00" }

/-- An empty deployment: both tables empty, ERPNext Call Log installed. -/
def exWebhookState : WebhookState :=
  { erp_doctype_exists := true, erp_rows := [], pbx_rows := [], next_name := 0 }

/-- Enabled settings holding a still-valid cached token. -/
def exCacheState : TMState :=
  { settings :=
    { enabled := true
      api_host := "pbx.example.com"
      client_id := "apiuser"
      client_secret := "apipass"
      access_token := some "cached-tok"
      refresh_token := some "cached-refresh"
      token_expiry := some 1000 }
    now := 500
    oracle := []
    sent := [] }

/-- Expired-token settings whose refresh call will fail with a vendor
error and whose two subsequent authenticate calls both fail. -/
def exRefreshAllFailState : TMState :=
  { settings :=
    { enabled := true
      api_host := "pbx.example.com"
      client_id := "apiuser"
      client_secret := "apipass"
      access_token := none
      refresh_token := some "stale-refresh"
      token_expiry := none }
    now := 0
    oracle := [HttpResult.reply 1 none none none, HttpResult.transportError,
               HttpResult.transportError]
    sent := [] }

/-- Expired-token settings whose refresh call fails on transport and whose
fallback authenticate call succeeds. -/
def exRefreshFallbackState : TMState :=
  { settings :=
    { enabled := true
      api_host := "pbx.example.com"
      client_id := "apiuser"
      client_secret := "apipass"
      access_token := none
      refresh_token := some "stale-refresh"
      token_expiry := none }
    now := 0
    oracle := [HttpResult.transportError,
               HttpResult.reply 0 (some "fresh-tok") (some "fresh-refresh") (some 1800),
               HttpResult.transportError]
    sent := [] }

/-- A Contact matching the example number, linked to customer CUST-0009. -/
def exContact : Contact :=
  { name := "CONT-0001"
    first_name := "Ann"
    last_name := some "Lee"
    phone := none
    phone_nos := ["+1 5551234567"]
    links := [{ link_doctype := "Customer", link_name := "CUST-0009" }] }

/-- A CRM store where a Contact and a Customer both match the same
number independently. -/
def exCrmDB : CrmDB :=
  { contacts := [exContact]
    customers := [{ name := "CUST-0002", mobile_no := some "5551234567" }]
    leads := [] }

/-- A new-envelope payload with the CDR event type. -/
def exEnvelope30012 : Payload :=
  { type_ := some 30012, msg := some "", event := none, action := none }

/-- A new-envelope payload with an unrecognized event type code. -/
def exEnvelopeUnknownType : Payload :=
  { type_ := some 99999, msg := some "", event := none, action := none }

/-!
## Helper lemmas
-/

lemma find?_none_of_count_zero {α} (p : α → Bool) (l : List α)
    (h : (l.filter p).length = 0) : l.find? p = none := by
  rw [List.find?_eq_none]
  intro x hx
  exact List.filter_eq_nil_iff.mp (List.length_eq_zero.mp h) x hx

lemma length_filter_map_pres {α} (f : α → α) (p : α → Bool) (l : List α)
    (hp : ∀ a, p (f a) = p a) :
    ((l.map f).filter p).length = (l.filter p).length := by
  rw [List.filter_map, List.length_map]
  have hf : List.filter (p ∘ f) l = List.filter p l :=
    List.filter_congr (fun x _ => hp x)
  rw [hf]

lemma countGetToken_append (l₁ l₂ : List HttpRequest) :
    countGetToken (l₁ ++ l₂) = countGetToken l₁ + countGetToken l₂ := by
  simp [countGetToken, List.filter_append]

lemma authenticate_sent (s : TMState) :
    (authenticate s).2.sent =
      s.sent ++ [HttpRequest.getTokenReq s.settings.client_id s.settings.client_secret] := by
  unfold authenticate doPost
  cases s.oracle with
  | nil => simp
  | cons r rest =>
    cases r with
    | transportError => simp
    | reply ec tok rtok ttl =>
      by_cases hec : (ec == 0) = true <;> simp [hec, save_tokens]

lemma get_access_token_refresh_path (st : TMState)
    (hen : st.settings.enabled = true)
    (hnocache : (strTruthy st.settings.access_token
        && st.settings.token_expiry.isSome
        && decide (st.now < st.settings.token_expiry.getD 0)) = false)
    (hrtt : strTruthy st.settings.refresh_token = true) :
    get_access_token st =
      (if strTruthy (refresh_access_token st).1 then
        (TokenResult.ok (refresh_access_token st).1, (refresh_access_token st).2)
      else
        (TokenResult.ok (authenticate (refresh_access_token st).2).1,
         (authenticate (refresh_access_token st).2).2)) := by
  simp [get_access_token, hen, hnocache, hrtt]

lemma authenticate_transport (s : TMState) (rest' : List HttpResult)
    (hso : s.oracle = HttpResult.transportError :: rest') :
    authenticate s =
      (none, { s with oracle := rest'
                      sent := s.sent ++ [HttpRequest.getTokenReq
                        s.settings.client_id s.settings.client_secret] }) := by
  simp [authenticate, doPost, hso]

lemma authenticate_reply_fail (s : TMState) (ec : Int)
    (tok rtok : Option String) (ttl : Option Int) (rest' : List HttpResult)
    (hso : s.oracle = HttpResult.reply ec tok rtok ttl :: rest')
    (hec : (ec == 0) = false) :
    authenticate s =
      (none, { s with oracle := rest'
                      sent := s.sent ++ [HttpRequest.getTokenReq
                        s.settings.client_id s.settings.client_secret] }) := by
  simp [authenticate, doPost, hso, hec]

lemma authenticate_reply_ok (s : TMState)
    (tok rtok : Option String) (ttl : Option Int) (rest' : List HttpResult)
    (hso : s.oracle = HttpResult.reply 0 tok rtok ttl :: rest') :
    authenticate s =
      (tok, save_tokens tok rtok ttl
        { s with oracle := rest'
                 sent := s.sent ++ [HttpRequest.getTokenReq
                   s.settings.client_id s.settings.client_secret] }) := by
  simp [authenticate, doPost, hso, save_tokens]

@[simp] lemma countGetToken_nil : countGetToken [] = 0 := rfl

@[simp] lemma countGetToken_cons_get (u p : String) (l : List HttpRequest) :
    countGetToken (HttpRequest.getTokenReq u p :: l) = countGetToken l + 1 := by
  simp [countGetToken, List.filter_cons]

@[simp] lemma countGetToken_cons_refresh (r : String) (l : List HttpRequest) :
    countGetToken (HttpRequest.refreshTokenReq r :: l) = countGetToken l := by
  simp [countGetToken, List.filter_cons]

/-!
## Claim theorems
-/

/-- C6: for every vendor reply carrying a TTL, the expiry saved by
`_save_tokens` is the save time plus the TTL minus the fixed 300-second
margin. -/
theorem save_tokens_expiry_margin (st : TMState) (tok rtok : Option String)
    (ttl : Int) :
    (save_tokens tok rtok (some ttl) st).settings.token_expiry =
      some (st.now + ttl - 300) := by
  simp [save_tokens, Int.add_sub_assoc]

/-- C7: `normalize_phone` maps `"+1 (555) 123-4567"` to `"15551234567"`,
and the last-10-characters key (`phone[-10:]`, used by `find_contact`,
`find_customer` and `find_lead` for the substring match) is
`"5551234567"`. -/
theorem normalize_phone_example :
    normalize_phone (some "+1 (555) 123-4567") = "15551234567" ∧
    pyLast10 (normalize_phone (some "+1 (555) 123-4567")) = "5551234567" :=
  ⟨by decide, by decide⟩

/-- C8: a normalized number shorter than 10 characters is its own match
key: `phone[-10:]` returns the whole string, with no error or padding. -/
theorem short_phone_whole_key (s : String) (h : s.length < 10) :
    pyLast10 s = s := by
  rcases s with ⟨data⟩
  have hd : data.length < 10 := h
  have h0 : data.length - 10 = 0 := by omega
  simp [pyLast10, String.toList, h0]

/-- C8 witness: the 5-digit key is used whole. -/
theorem short_phone_whole_key_witness :
    String.length "12345" < 10 ∧ pyLast10 "12345" = "12345" :=
  ⟨by decide, short_phone_whole_key "12345" (by decide)⟩

/-- C9: a new-envelope payload (a `msg` key present) whose `type` is 30012
routes to the Yeastar CDR handler `handle_yeastar_cdr`. -/
theorem route_30012_to_cdr (d : Payload) (h1 : d.type_ = some 30012)
    (h2 : d.msg.isSome = true) :
    receive_route (RawBody.parsed d) = RouteResult.toYeastarCdr := by
  simp [receive_route, h1, h2, intTruthy]

/-- C9 witness: a concrete type-30012 envelope is dispatched to the CDR
handler. -/
theorem route_30012_to_cdr_witness :
    exEnvelope30012.type_ = some 30012 ∧ exEnvelope30012.msg.isSome = true ∧
    receive_route (RawBody.parsed exEnvelope30012) = RouteResult.toYeastarCdr :=
  ⟨rfl, rfl, route_30012_to_cdr exEnvelope30012 rfl rfl⟩

/-- C10: `PBXUserExtension.validate` throws for every nonempty extension
containing a non-digit character, so such a document never passes the
before-save hook. -/
theorem extension_validate_rejects_nondigit (doc : PBXUserExtension)
    (s : String) (c : Char) (hs : doc.extension = some s) (hne : s ≠ "")
    (hc : c ∈ s.toList) (hnd : c.isDigit = false) :
    doc.validate = Except.error "Extension must be a numeric value" := by
  simp [PBXUserExtension.validate, hs, strTruthy, pyIsdigit, hne]
  exact ⟨c, hc, hnd⟩

/-- C10 witness: extension `"12a"` is rejected. -/
theorem extension_validate_rejects_nondigit_witness :
    (PBXUserExtension.mk (some "12a")).extension = some "12a" ∧
    ("12a" : String) ≠ "" ∧ 'a' ∈ String.toList "12a" ∧ Char.isDigit 'a' = false ∧
    (PBXUserExtension.mk (some "12a")).validate =
      Except.error "Extension must be a numeric value" :=
  ⟨rfl, by decide, by decide, by decide,
   extension_validate_rejects_nondigit (PBXUserExtension.mk (some "12a")) "12a" 'a'
     rfl (by decide) (by decide) (by decide)⟩

/-- C2: with the integration enabled, a cached nonempty token and an
expiry strictly after `now`, `get_access_token` returns the cached token
and leaves the whole state — request log, oracle and stored tokens —
untouched. -/
theorem token_cache_hit_no_http (st : TMState) (t : String) (e : Int)
    (hen : st.settings.enabled = true)
    (hat : st.settings.access_token = some t) (htne : t ≠ "")
    (hexp : st.settings.token_expiry = some e) (hnow : st.now < e) :
    get_access_token st = (TokenResult.ok (some t), st) := by
  have ht : strTruthy (some t) = true := by simp [strTruthy, htne]
  simp [get_access_token, hen, ht, hexp, hnow, hat]

/-- C2 witness: a concrete cached state is served without HTTP traffic. -/
theorem token_cache_hit_no_http_witness :
    exCacheState.settings.enabled = true ∧
    exCacheState.settings.access_token = some "cached-tok" ∧
    exCacheState.settings.token_expiry = some 1000 ∧
    exCacheState.now < 1000 ∧
    get_access_token exCacheState = (TokenResult.ok (some "cached-tok"), exCacheState) :=
  ⟨rfl, rfl, rfl, by decide,
   token_cache_hit_no_http exCacheState "cached-tok" 1000 rfl rfl (by decide) rfl
     (by decide)⟩

/-- C4: `lookup_phone_number` searches Contact, then Customer, then Lead,
stopping at the first table with a hit. When a Contact and a Customer both
match, the Contact is returned and the `customer` field is filled from the
Contact's own links — never from the independent Customer match. -/
theorem lookup_priority_contact_first (db : CrmDB) (raw : Option String) :
    (∀ c cust, find_contact db (normalize_phone raw) = some c →
      find_customer db (normalize_phone raw) = some cust →
      (lookup_phone_number db raw).contact = some c.name ∧
      (lookup_phone_number db raw).customer = lastLinkName "Customer" c.links ∧
      (lookup_phone_number db raw).found = true) ∧
    (∀ cust, find_contact db (normalize_phone raw) = none →
      find_customer db (normalize_phone raw) = some cust →
      (lookup_phone_number db raw).contact = none ∧
      (lookup_phone_number db raw).customer = some cust ∧
      (lookup_phone_number db raw).found = true) ∧
    (∀ ld, find_contact db (normalize_phone raw) = none →
      find_customer db (normalize_phone raw) = none →
      find_lead db (normalize_phone raw) = some ld →
      (lookup_phone_number db raw).lead = some ld ∧
      (lookup_phone_number db raw).found = true) := by
  refine ⟨?_, ?_, ?_⟩
  · intro c cust h1 h2
    simp [lookup_phone_number, h1]
  · intro cust h1 h2
    simp [lookup_phone_number, h1, h2]
  · intro ld h1 h2 h3
    simp [lookup_phone_number, h1, h2, h3]

/-- C4 witness: in `exCrmDB` both `exContact` and customer CUST-0002 match
`"+1 (555) 123-4567"`; the lookup returns the contact with its own linked
customer CUST-0009. -/
theorem lookup_priority_contact_first_witness :
    find_contact exCrmDB (normalize_phone (some "+1 (555) 123-4567")) = some exContact ∧
    find_customer exCrmDB (normalize_phone (some "+1 (555) 123-4567")) = some "CUST-0002" ∧
    (lookup_phone_number exCrmDB (some "+1 (555) 123-4567")).contact = some exContact.name ∧
    (lookup_phone_number exCrmDB (some "+1 (555) 123-4567")).customer =
      lastLinkName "Customer" exContact.links ∧
    (lookup_phone_number exCrmDB (some "+1 (555) 123-4567")).found = true := by
  refine ⟨by decide, by decide, ?_⟩
  exact (lookup_priority_contact_first exCrmDB (some "+1 (555) 123-4567")).1
    exContact "CUST-0002" (by decide) (by decide)

/-- C5 counterexample: an unparseable request body takes the exception
path of `receive` and is answered with status `"error"`, not `"ok"`. -/
theorem malformed_body_error_counterexample :
    immediateStatus (receive_route RawBody.malformed) = some "error" ∧
    immediateStatus (receive_route RawBody.malformed) ≠ some "ok" :=
  ⟨rfl, by decide⟩

/-- C5 (amended): a payload that parses but carries an unrecognized event
type — a new envelope with an unhandled type code, or a legacy shape with
an unknown event name — is acknowledged with status `"ok"`; an
unparseable body instead returns status `"error"` (see the
counterexample). -/
theorem unrecognized_event_ok_status (d : Payload) :
    (intTruthy d.type_ = true → d.msg.isSome = true → d.type_ ≠ some 30012 →
      d.type_ ≠ some 30011 →
      immediateStatus (receive_route (RawBody.parsed d)) = some "ok") ∧
    ((intTruthy d.type_ && d.msg.isSome) = false →
      legacyEventName d ∉ (["NewCdr", "CallStatus", "ExtensionStatus",
        "Ringing", "answer", "hangup", "HANGUP"] : List String) →
      immediateStatus (receive_route (RawBody.parsed d)) = some "ok") := by
  constructor
  · intro h1 h2 hne1 hne2
    have e1 : (d.type_ == some 30012) = false := by simp [hne1]
    have e2 : (d.type_ == some 30011) = false := by simp [hne2]
    simp [receive_route, h1, h2, e1, e2, immediateStatus]
  · intro h hnotin
    simp only [List.mem_cons, List.mem_singleton, not_or] at hnotin
    obtain ⟨n1, n2, n3, n4, n5, n6, n7⟩ := hnotin
    simp [receive_route, h, immediateStatus, n1, n2, n3, n4, n5, n6, n7]

/-- C5 witness: a concrete type-99999 envelope is acknowledged with
status `"ok"`. -/
theorem unrecognized_event_ok_status_witness :
    intTruthy exEnvelopeUnknownType.type_ = true ∧
    exEnvelopeUnknownType.msg.isSome = true ∧
    immediateStatus (receive_route (RawBody.parsed exEnvelopeUnknownType)) = some "ok" :=
  ⟨by decide, rfl,
   (unrecognized_event_ok_status exEnvelopeUnknownType).1 (by decide) rfl
     (by decide) (by decide)⟩

/-- C3 counterexample: with no valid cached token, a present refresh
token, a refresh call failing with a vendor error and an authenticate call
that also fails, `get_access_token` issues TWO `get_token` requests, not
exactly one: the fallback inside `_refresh_access_token` authenticates
once, returns `None`, and `get_access_token` then calls `_authenticate`
again itself. -/
theorem refresh_double_auth_counterexample :
    countGetToken (get_access_token exRefreshAllFailState).2.sent = 2 ∧
    countGetToken (get_access_token exRefreshAllFailState).2.sent ≠ 1 := by
  constructor <;> decide

/-- C3 (amended): with no valid cached token and a present refresh token,
a failed refresh call triggers at least one subsequent full authenticate
call; if that authenticate call yields a truthy token it is the only one
and its token is returned, but if it fails (or yields a falsy token) a
second authenticate call is made before `get_access_token` returns. -/
theorem refresh_fallback_auth_calls (st : TMState) (rt : String)
    (r0 r1 : HttpResult) (rest : List HttpResult)
    (hsent : st.sent = [])
    (hen : st.settings.enabled = true)
    (hnocache : (strTruthy st.settings.access_token
        && st.settings.token_expiry.isSome
        && decide (st.now < st.settings.token_expiry.getD 0)) = false)
    (hrt : st.settings.refresh_token = some rt) (hrtne : rt ≠ "")
    (horacle : st.oracle = r0 :: r1 :: rest)
    (hfail : replyFails r0 = true) :
    (authTruthySuccess r1 = true →
      (get_access_token st).1 = TokenResult.ok (replyToken r1) ∧
      countGetToken (get_access_token st).2.sent = 1) ∧
    (authTruthySuccess r1 = false →
      countGetToken (get_access_token st).2.sent = 2) := by
  have hrtt : strTruthy st.settings.refresh_token = true := by
    rw [hrt]; simp [strTruthy, hrtne]
  have hfail0 : ∀ s : TMState, s.oracle = r0 :: r1 :: rest →
      refresh_access_token s = authenticate
        { s with oracle := r1 :: rest
                 sent := s.sent ++ [HttpRequest.refreshTokenReq
                   (s.settings.refresh_token.getD "")] } := by
    intro s hso
    rcases r0 with _ | ⟨ec0, tok0, rtok0, ttl0⟩
    · simp [refresh_access_token, doPost, hso]
    · have hec0 : (ec0 == 0) = false := by simpa [replyFails] using hfail
      simp [refresh_access_token, doPost, hso, hec0]
  rw [get_access_token_refresh_path st hen hnocache hrtt, hfail0 st horacle]
  constructor
  · intro hsucc
    rcases r1 with _ | ⟨ec1, tok1, rtok1, ttl1⟩
    · simp [authTruthySuccess] at hsucc
    · simp only [authTruthySuccess, Bool.and_eq_true, beq_iff_eq] at hsucc
      obtain ⟨hec1, htok1⟩ := hsucc
      subst hec1
      rw [authenticate_reply_ok _ tok1 rtok1 ttl1 rest rfl]
      simp [save_tokens, htok1, replyToken, hsent, hrt]
  · intro hfailauth
    rcases r1 with _ | ⟨ec1, tok1, rtok1, ttl1⟩
    · rw [authenticate_transport _ rest rfl]
      simp [strTruthy, authenticate_sent, hsent, hrt]
    · by_cases hec1 : (ec1 == 0) = true
      · have htok1 : strTruthy tok1 = false := by
          simpa [authTruthySuccess, hec1] using hfailauth
        have hec1' : ec1 = 0 := by simpa using hec1
        subst hec1'
        rw [authenticate_reply_ok _ tok1 rtok1 ttl1 rest rfl]
        simp [save_tokens, htok1, authenticate_sent, hsent, hrt]
      · have hec1' : (ec1 == 0) = false := by simpa using hec1
        rw [authenticate_reply_fail _ ec1 tok1 rtok1 ttl1 rest rfl hec1']
        simp [strTruthy, authenticate_sent, hsent, hrt]

/-- C3 witness: a concrete expired state whose refresh call fails on
transport and whose single fallback authenticate call succeeds and
returns the fresh token. -/
theorem refresh_fallback_auth_calls_witness :
    (get_access_token exRefreshFallbackState).1 =
      TokenResult.ok (replyToken
        (HttpResult.reply 0 (some "fresh-tok") (some "fresh-refresh") (some 1800))) ∧
    countGetToken (get_access_token exRefreshFallbackState).2.sent = 1 :=
  (refresh_fallback_auth_calls exRefreshFallbackState "stale-refresh"
      HttpResult.transportError
      (HttpResult.reply 0 (some "fresh-tok") (some "fresh-refresh") (some 1800))
      [HttpResult.transportError] rfl rfl (by decide) rfl (by decide) rfl
      (by decide)).1 (by decide)

/-- When `call_id` is truthy and no row matches it, `handle_yeastar_cdr`
inserts: the new table is one new row (carrying the event's call id)
consed onto the old rows. -/
lemma cdr_insert_case (now : Int) (msg : CdrMsg) (st : WebhookState)
    (htr : strTruthy msg.call_id = true)
    (hfind : st.pbx_rows.find? (fun r => r.call_id == msg.call_id) = none) :
    (handle_yeastar_cdr now msg st).1.message = "Call log created" ∧
    ∃ row : CallLogRow,
      (handle_yeastar_cdr now msg st).2.pbx_rows = row :: st.pbx_rows ∧
      row.call_id = msg.call_id := by
  refine ⟨?_, ?_⟩
  · simp [handle_yeastar_cdr, htr, hfind]
  · simp only [handle_yeastar_cdr, htr, hfind]
    exact ⟨_, rfl, rfl⟩

/-- When `call_id` is truthy and a row matches it, `handle_yeastar_cdr`
updates in place: the new table is a map over the old rows by a function
that never changes a row's call id. -/
lemma cdr_update_case (now : Int) (msg : CdrMsg) (st : WebhookState)
    (row : CallLogRow) (htr : strTruthy msg.call_id = true)
    (hfind : st.pbx_rows.find? (fun r => r.call_id == msg.call_id) = some row) :
    (handle_yeastar_cdr now msg st).1.message = "Call log updated" ∧
    ∃ f : CallLogRow → CallLogRow,
      (handle_yeastar_cdr now msg st).2.pbx_rows = st.pbx_rows.map f ∧
      ∀ r, (f r).call_id = r.call_id := by
  refine ⟨?_, ?_⟩
  · simp [handle_yeastar_cdr, htr, hfind]
  · simp only [handle_yeastar_cdr, htr, hfind]
    refine ⟨_, rfl, ?_⟩
    intro r
    by_cases h : (r.row_name == row.row_name) = true <;> simp [h]

/-- C1: delivering the same completed-call event (with a truthy call id)
twice in sequence to `handle_yeastar_cdr`, starting from a table with no
row for that call id, yields exactly one `PBX Call Log` row for the id:
the first delivery inserts (response "Call log created"), the second
updates in place (response "Call log updated") without inserting a
duplicate. -/
theorem cdr_upsert_idempotent (now1 now2 : Int) (msg : CdrMsg)
    (st : WebhookState) (cid : String) (hcid : msg.call_id = some cid)
    (hne : cid ≠ "") (hfresh : pbxCountFor cid st = 0) :
    (handle_yeastar_cdr now1 msg st).1.message = "Call log created" ∧
    pbxCountFor cid (handle_yeastar_cdr now1 msg st).2 = 1 ∧
    (handle_yeastar_cdr now2 msg
      (handle_yeastar_cdr now1 msg st).2).1.message = "Call log updated" ∧
    pbxCountFor cid (handle_yeastar_cdr now2 msg
      (handle_yeastar_cdr now1 msg st).2).2 = 1 := by
  have htr : strTruthy msg.call_id = true := by
    rw [hcid]; simp [strTruthy, hne]
  have h0 : (st.pbx_rows.filter
      (fun r => r.call_id == some cid)).length = 0 := by
    simpa only [pbxCountFor] using hfresh
  have hfind1 : st.pbx_rows.find? (fun r => r.call_id == msg.call_id) = none := by
    rw [hcid]
    exact find?_none_of_count_zero _ _ h0
  obtain ⟨hmsg1, row, hrows1, hrowcid⟩ := cdr_insert_case now1 msg st htr hfind1
  have hprow : (fun r : CallLogRow => r.call_id == msg.call_id) row = true := by
    simp [hrowcid]
  have hprowc : (fun r : CallLogRow => r.call_id == some cid) row = true := by
    simp [hrowcid, hcid]
  have hcount1 : pbxCountFor cid (handle_yeastar_cdr now1 msg st).2 = 1 := by
    simp only [pbxCountFor]
    rw [hrows1,
      @List.filter_cons_of_pos CallLogRow (fun r => r.call_id == some cid)
        row st.pbx_rows hprowc,
      List.length_cons, h0]
  have hfind2 : (handle_yeastar_cdr now1 msg st).2.pbx_rows.find?
      (fun r => r.call_id == msg.call_id) = some row := by
    rw [hrows1]
    exact @List.find?_cons_of_pos CallLogRow
      (fun r => r.call_id == msg.call_id) row st.pbx_rows hprow
  obtain ⟨hmsg2, f, hrows2, hfcid⟩ :=
    cdr_update_case now2 msg (handle_yeastar_cdr now1 msg st).2 row htr hfind2
  refine ⟨hmsg1, hcount1, hmsg2, ?_⟩
  have hpres : ∀ r : CallLogRow,
      ((f r).call_id == some cid) = (r.call_id == some cid) := by
    intro r; rw [hfcid]
  calc pbxCountFor cid (handle_yeastar_cdr now2 msg
          (handle_yeastar_cdr now1 msg st).2).2
      = (((handle_yeastar_cdr now1 msg st).2.pbx_rows.map f).filter
          (fun r => r.call_id == some cid)).length := by
        simp only [pbxCountFor, hrows2]
    _ = ((handle_yeastar_cdr now1 msg st).2.pbx_rows.filter
          (fun r => r.call_id == some cid)).length :=
        length_filter_map_pres f _ _ hpres
    _ = 1 := hcount1

/-- C1 witness: two deliveries of a concrete CDR event to an empty table
produce exactly one row, via insert then update. -/
theorem cdr_upsert_idempotent_witness :
    exCdrMsg.call_id = some "162.1700000000.0" ∧
    pbxCountFor "162.1700000000.0" exWebhookState = 0 ∧
    (handle_yeastar_cdr 10 exCdrMsg exWebhookState).1.message = "Call log created" ∧
    pbxCountFor "162.1700000000.0"
      (handle_yeastar_cdr 10 exCdrMsg exWebhookState).2 = 1 ∧
    (handle_yeastar_cdr 11 exCdrMsg
      (handle_yeastar_cdr 10 exCdrMsg exWebhookState).2).1.message = "Call log updated" ∧
    pbxCountFor "162.1700000000.0" (handle_yeastar_cdr 11 exCdrMsg
      (handle_yeastar_cdr 10 exCdrMsg exWebhookState).2).2 = 1 := by
  refine ⟨rfl, rfl, ?_, ?_, ?_, ?_⟩
  · exact (cdr_upsert_idempotent 10 11 exCdrMsg exWebhookState
      "162.1700000000.0" rfl (by decide) rfl).1
  · exact (cdr_upsert_idempotent 10 11 exCdrMsg exWebhookState
      "162.1700000000.0" rfl (by decide) rfl).2.1
  · exact (cdr_upsert_idempotent 10 11 exCdrMsg exWebhookState
      "162.1700000000.0" rfl (by decide) rfl).2.2.1
  · exact (cdr_upsert_idempotent 10 11 exCdrMsg exWebhookState
      "162.1700000000.0" rfl (by decide) rfl).2.2.2

end PbxRouting
